import Mathlib

/-!
Verification of the yxa keyboard firmware's sideband publisher, layer
engine, RGB indicator and bootloader bindings, as implemented in
src/firmware/keyboards/yxa/keymaps/miryoku/yxa_features.c (the full
featured variant) and src/firmware/keymap.c (the plain variant).
Machine integers are modelled as Nat; uint16 timer arithmetic is made
explicit where it matters (timer_elapsed).
-/

/-! ## Message types and sizes (yxa_features.c lines 8-32, keymap.c lines 8-13) -/

def MSG_REQUEST_STATE : Nat := 0x00
def MSG_LAYER_STATE : Nat := 0x01
def MSG_KEY_PRESS : Nat := 0x02
def MSG_KEY_RELEASE : Nat := 0x03
def MSG_CAPS_WORD_STATE : Nat := 0x04
def MSG_MODIFIER_STATE : Nat := 0x05
def MSG_HEARTBEAT : Nat := 0x06
def MSG_FULL_STATE : Nat := 0x07
def MSG_KEY_BATCH : Nat := 0x08

def RAW_EPSIZE : Nat := 32

def MAX_BATCH_EVENTS : Nat := 8

def BATCH_TIMEOUT_MS : Nat := 2

/-! ## Layer computation

QMK's get_highest_layer(state) is biton(state): the index of the highest
set bit, and 0 for the empty state; on Nat this is exactly Nat.log2. -/

def get_highest_layer (state : Nat) : Nat := Nat.log2 state

/-- yxa_features.c lines 35-38: effective layer combines the momentary
layer bitfield (layer_state) with the default layer mask
(default_layer_state) and takes the highest set bit of the union. -/
def get_effective_layer (layer_state default_layer_state : Nat) : Nat :=
  get_highest_layer (layer_state ||| default_layer_state)

/-- keymap.c line 76: the plain variant's housekeeping computes the
broadcast layer from layer_state alone, without default_layer_state. -/
def keymap_reported_layer (layer_state : Nat) : Nat :=
  get_highest_layer layer_state

/-! ## Frames

A frame is what one raw_hid_send call carries; frameBytes is the 32-byte
wire image (all frames are zero-padded to RAW_EPSIZE). -/

inductive Frame where
  | layerState (layer : Nat)
  | capsWordState (flag : Nat)
  | modifierState (mods : Nat)
  | fullState (layer caps mods pressedCount : Nat)
  | keyBatch (events : List (Nat × Nat × Nat))
  deriving DecidableEq, Repr

def padFrame (bytes : List Nat) : List Nat :=
  bytes ++ List.replicate (RAW_EPSIZE - bytes.length) 0

/-- The 32-byte image of each keyboard-to-host frame. For a key batch
(yxa_features.c lines 46-60) the count byte is batch_count and the copy
loop writes (type,row,col) triples for i < batch_count and i <
MAX_BATCH_EVENTS. -/
def frameBytes : Frame → List Nat
  | .layerState l => padFrame [MSG_LAYER_STATE, l]
  | .capsWordState f => padFrame [MSG_CAPS_WORD_STATE, f]
  | .modifierState m => padFrame [MSG_MODIFIER_STATE, m]
  | .fullState l c m k => padFrame [MSG_FULL_STATE, l, c, m, k]
  | .keyBatch evs =>
      padFrame (MSG_KEY_BATCH :: evs.length ::
        ((evs.take MAX_BATCH_EVENTS).flatMap fun e => [e.1, e.2.1, e.2.2]))

def isLayerFrame : Frame → Bool
  | .layerState _ => true
  | _ => false

def isCapsFrame : Frame → Bool
  | .capsWordState _ => true
  | _ => false

def isModsFrame : Frame → Bool
  | .modifierState _ => true
  | _ => false

def isBatchFrame : Frame → Bool
  | .keyBatch _ => true
  | _ => false

/-! ## Publisher state (yxa_features.c lines 22-31) -/

structure PubState where
  last_broadcast_layer : Nat
  last_caps_word_state : Bool
  last_modifier_state : Nat
  event_batch : List (Nat × Nat × Nat)
  last_batch_time : Nat
  deriving DecidableEq, Repr

/-- Power-up state: last_broadcast_layer = 255 (a sentinel no valid layer
index reaches), the caches cleared and the batch empty. -/
def initState : PubState :=
  { last_broadcast_layer := 255
    last_caps_word_state := false
    last_modifier_state := 0
    event_batch := []
    last_batch_time := 0 }

/-- QMK timer_elapsed on 16-bit timers: (uint16)(now - last). Both
arguments are uint16 values (< 65536). -/
def timer_elapsed (now last : Nat) : Nat :=
  (now % 65536 + 65536 - last % 65536) % 65536

/-- yxa_features.c lines 46-60: send the pending batch, if any, as one
KEY_BATCH frame and clear the batch. -/
def flush_event_batch (s : PubState) : PubState × List Frame :=
  if s.event_batch ≠ [] then
    ({ s with event_batch := [] }, [Frame.keyBatch s.event_batch])
  else (s, [])

/-- yxa_features.c lines 63-75: if the batch is full flush it first, then
append the event and stamp last_batch_time. -/
def add_event_to_batch (t row col now : Nat) (s : PubState) :
    PubState × List Frame :=
  let r :=
    if s.event_batch.length ≥ MAX_BATCH_EVENTS then flush_event_batch s
    else (s, [])
  ({ r.1 with
      event_batch := r.1.event_batch ++ [(t, row, col)]
      last_batch_time := now }, r.2)

/-- yxa_features.c lines 129-138: every key event (press or release) is
added to the batch; no frame is sent directly from the hook. -/
def process_record_user (now : Nat) (pressed : Bool) (row col : Nat)
    (s : PubState) : PubState × List Frame :=
  add_event_to_batch (if pressed then MSG_KEY_PRESS else MSG_KEY_RELEASE)
    row col now s

/-- Housekeeping stage 1, yxa_features.c lines 92-95: flush the batch
when it is nonempty and BATCH_TIMEOUT_MS has elapsed. -/
def hk_flush (now : Nat) (s : PubState) : PubState × List Frame :=
  if s.event_batch.length > 0 ∧
      timer_elapsed now s.last_batch_time > BATCH_TIMEOUT_MS then
    flush_event_batch s
  else (s, [])

/-- Housekeeping stage 2, yxa_features.c lines 97-105: broadcast the
effective layer when it differs from the cache, updating the cache. -/
def hk_layer (current : Nat) (s : PubState) : PubState × List Frame :=
  if current ≠ s.last_broadcast_layer then
    ({ s with last_broadcast_layer := current },
      [Frame.layerState current])
  else (s, [])

/-- Housekeeping stage 3, yxa_features.c lines 107-115. -/
def hk_caps (caps : Bool) (s : PubState) : PubState × List Frame :=
  if caps ≠ s.last_caps_word_state then
    ({ s with last_caps_word_state := caps },
      [Frame.capsWordState (if caps then 1 else 0)])
  else (s, [])

/-- Housekeeping stage 4, yxa_features.c lines 117-125. -/
def hk_mods (mods : Nat) (s : PubState) : PubState × List Frame :=
  if mods ≠ s.last_modifier_state then
    ({ s with last_modifier_state := mods },
      [Frame.modifierState mods])
  else (s, [])

/-- yxa_features.c lines 91-126: housekeeping flushes a timed-out batch,
then broadcasts layer, caps-word and modifier state, each only when it
differs from the per-channel cache. ls/ds are layer_state and
default_layer_state; caps and mods the current caps-word flag and
modifier bitmask. -/
def housekeeping_task_user (now ls ds : Nat) (caps : Bool) (mods : Nat)
    (s : PubState) : PubState × List Frame :=
  let r1 := hk_flush now s
  let r2 := hk_layer (get_effective_layer ls ds) r1.1
  let r3 := hk_caps caps r2.1
  let r4 := hk_mods mods r3.1
  (r4.1, r1.2 ++ (r2.2 ++ (r3.2 ++ r4.2)))

/-- yxa_features.c lines 78-88: the FULL_STATE response; the pressed-key
count byte is always 0 (the firmware does not track pressed keys). -/
def send_full_state (ls ds : Nat) (caps : Bool) (mods : Nat) : Frame :=
  Frame.fullState (get_effective_layer ls ds) (if caps then 1 else 0) mods 0

/-- yxa_features.c lines 141-157: REQUEST_STATE and HEARTBEAT are both
answered with one FULL_STATE frame; any other tag is ignored. data0 is
the first byte of the received report. -/
def raw_hid_receive_kb (data0 ls ds : Nat) (caps : Bool) (mods : Nat) :
    Bool × List Frame :=
  if data0 = MSG_REQUEST_STATE then (true, [send_full_state ls ds caps mods])
  else if data0 = MSG_HEARTBEAT then (true, [send_full_state ls ds caps mods])
  else (false, [])

/-- keymap.c lines 75-86: the plain variant's housekeeping broadcasts
get_highest_layer(layer_state) when it differs from the cached value
(returns the new cache and the frames sent). -/
def keymap_housekeeping (ls last : Nat) : Nat × List Frame :=
  let current := keymap_reported_layer ls
  if current ≠ last then (current, [Frame.layerState current])
  else (last, [])

/-- keymap.c lines 89-98: the plain variant answers REQUEST_STATE with a
LAYER_STATE frame (not FULL_STATE) and ignores every other tag,
HEARTBEAT included. -/
def keymap_raw_hid_receive (data0 ls : Nat) : Bool × List Frame :=
  if data0 = MSG_REQUEST_STATE then
    (true, [Frame.layerState (keymap_reported_layer ls)])
  else (false, [])

/-! ## Event runs: interleavings of key events and housekeeping ticks -/

inductive Step where
  | key (now : Nat) (pressed : Bool) (row col : Nat)
  | tick (now ls ds : Nat) (caps : Bool) (mods : Nat)

def stepRun (s : PubState) : Step → PubState × List Frame
  | .key now pressed row col => process_record_user now pressed row col s
  | .tick now ls ds caps mods => housekeeping_task_user now ls ds caps mods s

def run (s : PubState) : List Step → PubState × List Frame
  | [] => (s, [])
  | st :: rest =>
      let r1 := stepRun s st
      let r2 := run r1.1 rest
      (r2.1, r1.2 ++ r2.2)

/-- The (type,row,col) key events a key step feeds to the publisher. -/
def keyInputs : List Step → List (Nat × Nat × Nat)
  | [] => []
  | .key _ pressed row col :: rest =>
      (if pressed then MSG_KEY_PRESS else MSG_KEY_RELEASE, row, col) ::
        keyInputs rest
  | .tick _ _ _ _ _ :: rest => keyInputs rest

/-- The key events carried by the emitted frames, in emission order. -/
def keyEventsOfFrames (fs : List Frame) : List (Nat × Nat × Nat) :=
  fs.flatMap fun f => match f with
    | .keyBatch evs => evs
    | _ => []

/-- The event-type bytes (MSG_KEY_PRESS / MSG_KEY_RELEASE) of the events
at physical key (row, col), in order. -/
def eventTypesAt (row col : Nat) (evs : List (Nat × Nat × Nat)) : List Nat :=
  (evs.filter fun e => e.2.1 == row && e.2.2 == col).map fun e => e.1

/-- Alternation check: the list of type bytes starts with `expected` and
alternates between MSG_KEY_PRESS and MSG_KEY_RELEASE. -/
def altFrom (expected : Nat) : List Nat → Bool
  | [] => true
  | t :: ts =>
      t == expected &&
        altFrom (if expected == MSG_KEY_PRESS then MSG_KEY_RELEASE
          else MSG_KEY_PRESS) ts

def altFromPress (l : List Nat) : Bool := altFrom MSG_KEY_PRESS l

/-! ## RGB indicator (yxa_features.c lines 160-327, keymap.c lines 100-167)

The LED buffer holds, per LED, the HSV triple passed to set_led_hsv /
rgb_matrix_set_color; QMK's hsv_to_rgb is an external pure function
applied to that triple on output, so buffer equalities transfer along it.
The imperative indicator body is compiled to its sequence of writes
(index, color) in program order; painting applies them left to right,
the last write to an index winning. -/

def Color : Type := Nat × Nat × Nat

instance : DecidableEq Color := instDecidableEqProd

def Buffer : Type := Fin 36 → Color

def setColor (b : Buffer) (i : Nat) (c : Color) : Buffer :=
  fun j => if j.val = i then c else b j

def applyWrites (ws : List (Nat × Color)) (b : Buffer) : Buffer :=
  ws.foldl (fun buf w => setColor buf w.1 w.2) b

/-- yxa_features.c lines 178-183. -/
def FINGER_MAP : List Nat :=
  [3, 3, 2, 1, 0, 3, 3, 2, 1, 0, 3, 3, 2, 1, 0, 4, 4, 4,
   0, 1, 2, 3, 3, 0, 1, 2, 3, 3, 0, 1, 2, 3, 3, 4, 4, 4]

/-- yxa_features.c lines 186-192. -/
def FINGER_COLORS : List Color :=
  [(128, 255, 180), (213, 255, 180), (85, 255, 180), (43, 255, 180),
   (170, 255, 180)]

def fingerColorAt (i : Nat) : Color :=
  FINGER_COLORS.getD (FINGER_MAP.getD i 0) (0, 0, 0)

/-! Layer base colors, yxa_features.c lines 195-202. -/

def YXA_CYAN : Color := (128, 255, 200)
def YXA_GREEN : Color := (85, 255, 200)
def YXA_PURPLE : Color := (213, 255, 200)
def YXA_YELLOW : Color := (43, 255, 200)
def YXA_RED : Color := (0, 255, 200)
def YXA_BLUE : Color := (170, 255, 200)
def YXA_ORANGE : Color := (21, 255, 200)
def YXA_WHITE : Color := (0, 0, 200)

/-- The LED indices a loop `for i = led_min; i < led_max && i < 36` visits. -/
def ledRange (led_min led_max : Nat) : List Nat :=
  (List.range' led_min (led_max - led_min)).filter fun i => i < 36

/-- An inclusive loop `for i = lo; i <= hi` writing one color. -/
def seg (lo hi : Nat) (c : Color) : List (Nat × Color) :=
  (List.range' lo (hi + 1 - lo)).map fun i => (i, c)

/-- The per-layer accent writes of the switch in
rgb_matrix_indicators_advanced_user, yxa_features.c lines 228-323. -/
def yxaCaseWrites : Nat → List (Nat × Color)
  | 3 => seg 0 4 YXA_ORANGE ++ seg 10 14 YXA_ORANGE ++
      seg 18 22 YXA_ORANGE ++ seg 28 32 YXA_ORANGE ++
      [(15, YXA_PURPLE), (16, YXA_PURPLE), (17, YXA_PURPLE),
       (33, YXA_PURPLE), (34, YXA_PURPLE), (35, YXA_PURPLE)] ++
      seg 5 9 YXA_WHITE ++ seg 23 27 YXA_WHITE
  | 4 => seg 5 9 YXA_WHITE ++
      [(23, YXA_CYAN), (24, YXA_CYAN), (25, YXA_CYAN), (26, YXA_CYAN),
       (27, YXA_CYAN)] ++
      seg 28 32 YXA_BLUE ++ seg 18 22 YXA_ORANGE ++
      [(33, YXA_GREEN), (34, YXA_GREEN), (35, YXA_GREEN)]
  | 5 => seg 5 9 YXA_WHITE ++ seg 23 27 YXA_GREEN ++
      seg 28 32 YXA_CYAN ++ seg 18 22 YXA_ORANGE ++
      [(33, YXA_PURPLE), (34, YXA_PURPLE), (35, YXA_PURPLE)]
  | 6 => seg 5 9 YXA_WHITE ++ seg 18 22 YXA_CYAN ++
      seg 23 27 YXA_PURPLE ++
      [(33, YXA_PURPLE), (34, YXA_PURPLE), (35, YXA_PURPLE)]
  | 7 => seg 0 4 YXA_YELLOW ++ seg 5 9 YXA_YELLOW ++
      seg 10 14 YXA_YELLOW ++
      [(15, YXA_YELLOW), (16, YXA_YELLOW), (17, YXA_YELLOW)] ++
      seg 23 27 YXA_WHITE
  | 8 => seg 0 4 YXA_RED ++ seg 5 9 YXA_RED ++ seg 10 14 YXA_RED ++
      [(15, YXA_RED), (16, YXA_RED), (17, YXA_RED)] ++
      seg 23 27 YXA_WHITE
  | 9 => seg 0 4 YXA_BLUE ++ seg 5 9 YXA_BLUE ++ seg 10 14 YXA_BLUE ++
      [(15, YXA_CYAN), (16, YXA_CYAN), (17, YXA_CYAN)] ++
      seg 23 27 YXA_WHITE
  | _ => []

/-- yxa_features.c lines 211-326 as its write sequence: base layers
(layer <= 2) paint every LED in range with its finger color; other
layers first paint every LED in range white, then apply the layer's
accent writes. -/
def yxa_indicator_writes (led_min led_max layer : Nat) :
    List (Nat × Color) :=
  if layer ≤ 2 then (ledRange led_min led_max).map fun i => (i, fingerColorAt i)
  else ((ledRange led_min led_max).map fun i => (i, YXA_WHITE)) ++
    yxaCaseWrites layer

/-- One full-frame repaint at effective layer `layer`: the indicator
called over the whole LED range (led_min = 0, led_max = 36, the board's
LED count). -/
def yxa_rgb_paint (layer : Nat) (b : Buffer) : Buffer :=
  applyWrites (yxa_indicator_writes 0 36 layer) b

/-- keymap.c lines 104-122. -/
def KM_FINGER_MAP : List Nat :=
  [0, 1, 2, 3, 3, 0, 1, 2, 3, 3, 0, 1, 2, 3, 3, 4, 4, 4,
   3, 3, 2, 1, 0, 3, 3, 2, 1, 0, 3, 3, 2, 1, 0, 4, 4, 4]

/-- keymap.c lines 125-131. -/
def KM_FINGER_COLORS : List Color :=
  [(128, 255, 180), (213, 255, 180), (85, 255, 180), (43, 255, 180),
   (170, 255, 180)]

/-- keymap.c lines 134-143. -/
def KM_LAYER_COLORS : List Color :=
  [(0, 0, 128), (128, 255, 200), (85, 255, 200), (213, 255, 200),
   (43, 255, 200), (0, 255, 200), (170, 255, 200), (21, 255, 200)]

def kmFingerColorAt (i : Nat) : Color :=
  KM_FINGER_COLORS.getD (KM_FINGER_MAP.getD i 0) (0, 0, 0)

/-- keymap.c lines 145-165 as its write sequence: layer 0 paints each
LED < 36 by finger; layers 1-7 paint every LED in range with the layer
color; higher layers write nothing. -/
def km_indicator_writes (led_min led_max layer : Nat) :
    List (Nat × Color) :=
  (List.range' led_min (led_max - led_min)).flatMap fun i =>
    if layer = 0 then
      if i < 36 then [(i, kmFingerColorAt i)] else []
    else if layer < 8 then [(i, KM_LAYER_COLORS.getD layer (0, 0, 0))]
    else []

/-- One full-frame repaint by the plain variant's indicator. -/
def km_rgb_paint (layer : Nat) (b : Buffer) : Buffer :=
  applyWrites (km_indicator_writes 0 36 layer) b

/-! ## Keymap actions and tap dance

Actions are the claim-relevant shape of QMK keycodes: plain keycodes
keep their source macro text; dual-role and layer keycodes keep their
structure. Layer ids are the enum values of each keymap. -/

inductive KeyAction where
  | kc (name : String)
  | modTap (mod tap : String)
  | layerTap (layer : Nat) (tap : String)
  | momentary (layer : Nat)
  | tapDance (id : Nat)
  | boot
  | trans
  | no
  deriving DecidableEq, Repr

inductive TDEffect where
  | noEffect
  | resetKeyboard
  | setDefaultLayer (mask : Nat)
  deriving DecidableEq, Repr

/-- miryoku keymap.c lines 49-53 (and users/miryoku/miryoku.c lines
23-27): the boot tap dance calls reset_keyboard() exactly when the final
tap count is 2. -/
def u_td_fn_boot (count : Nat) : TDEffect :=
  if count = 2 then TDEffect.resetKeyboard else TDEffect.noEffect

/-- miryoku keymap.c lines 55-64: the layer tap dances call
default_layer_set(1 << LAYER) exactly when the final tap count is 2. -/
def u_td_fn_layer (layer count : Nat) : TDEffect :=
  if count = 2 then TDEffect.setDefaultLayer (1 <<< layer)
  else TDEffect.noEffect

/-- miryoku keymap.c lines 67-79: the tap_dance_actions array. Ids follow
the enum at lines 34-46 (U_TD_BOOT = 0, U_TD_U_BASE = 1, U_TD_U_EXTRA =
2, U_TD_U_TAP = 3); entries 4-10 all reuse u_td_fn_U_BASE. Layer ids:
U_BASE = 0, U_EXTRA = 1, U_TAP = 2. -/
def tap_dance_actions (id count : Nat) : TDEffect :=
  match id with
  | 0 => u_td_fn_boot count
  | 1 => u_td_fn_layer 0 count
  | 2 => u_td_fn_layer 1 count
  | 3 => u_td_fn_layer 2 count
  | 4 => u_td_fn_layer 0 count
  | 5 => u_td_fn_layer 0 count
  | 6 => u_td_fn_layer 0 count
  | 7 => u_td_fn_layer 0 count
  | 8 => u_td_fn_layer 0 count
  | 9 => u_td_fn_layer 0 count
  | 10 => u_td_fn_layer 0 count
  | _ => TDEffect.noEffect

/-- The miryoku keymap, keymap.c (keyboards/yxa/keymaps/miryoku) lines
88-168, one 36-entry list per layer in LAYOUT_split_3x5_3 argument
order. Layers: U_BASE=0, U_EXTRA=1, U_TAP=2, U_BUTTON=3, U_NAV=4,
U_MOUSE=5, U_MEDIA=6, U_NUM=7, U_SYM=8, U_FUN=9. Clipboard macros:
U_RDO=KC_AGIN, U_PST=S(KC_INS), U_CPY=C(KC_INS), U_CUT=S(KC_DEL),
U_UND=KC_UNDO; U_NP/U_NA/U_NU are KC_NO. -/
def miryoku_keymaps : List (List KeyAction) :=
  [ -- U_BASE: Colemak-DH with home row mods
    [.kc "KC_Q", .kc "KC_W", .kc "KC_F", .kc "KC_P", .kc "KC_B",
     .kc "KC_J", .kc "KC_L", .kc "KC_U", .kc "KC_Y", .kc "KC_QUOT",
     .modTap "LGUI" "KC_A", .modTap "LALT" "KC_R", .modTap "LCTL" "KC_S",
     .modTap "LSFT" "KC_T", .kc "KC_G",
     .kc "KC_M", .modTap "LSFT" "KC_N", .modTap "LCTL" "KC_E",
     .modTap "LALT" "KC_I", .modTap "LGUI" "KC_O",
     .layerTap 3 "KC_Z", .modTap "ALGR" "KC_X", .kc "KC_C", .kc "KC_D",
     .kc "KC_V",
     .kc "KC_K", .kc "KC_H", .kc "KC_COMM", .modTap "ALGR" "KC_DOT",
     .layerTap 3 "KC_SLSH",
     .layerTap 6 "KC_ESC", .layerTap 4 "KC_SPC", .layerTap 5 "KC_TAB",
     .layerTap 8 "KC_ENT", .layerTap 7 "KC_BSPC", .layerTap 9 "KC_DEL"],
    -- U_EXTRA: QWERTY
    [.kc "KC_Q", .kc "KC_W", .kc "KC_E", .kc "KC_R", .kc "KC_T",
     .kc "KC_Y", .kc "KC_U", .kc "KC_I", .kc "KC_O", .kc "KC_P",
     .modTap "LGUI" "KC_A", .modTap "LALT" "KC_S", .modTap "LCTL" "KC_D",
     .modTap "LSFT" "KC_F", .kc "KC_G",
     .kc "KC_H", .modTap "LSFT" "KC_J", .modTap "LCTL" "KC_K",
     .modTap "LALT" "KC_L", .modTap "LGUI" "KC_QUOT",
     .layerTap 3 "KC_Z", .modTap "ALGR" "KC_X", .kc "KC_C", .kc "KC_V",
     .kc "KC_B",
     .kc "KC_N", .kc "KC_M", .kc "KC_COMM", .modTap "ALGR" "KC_DOT",
     .layerTap 3 "KC_SLSH",
     .layerTap 6 "KC_ESC", .layerTap 4 "KC_SPC", .layerTap 5 "KC_TAB",
     .layerTap 8 "KC_ENT", .layerTap 7 "KC_BSPC", .layerTap 9 "KC_DEL"],
    -- U_TAP: Colemak-DH without home row mods
    [.kc "KC_Q", .kc "KC_W", .kc "KC_F", .kc "KC_P", .kc "KC_B",
     .kc "KC_J", .kc "KC_L", .kc "KC_U", .kc "KC_Y", .kc "KC_QUOT",
     .kc "KC_A", .kc "KC_R", .kc "KC_S", .kc "KC_T", .kc "KC_G",
     .kc "KC_M", .kc "KC_N", .kc "KC_E", .kc "KC_I", .kc "KC_O",
     .kc "KC_Z", .kc "KC_X", .kc "KC_C", .kc "KC_D", .kc "KC_V",
     .kc "KC_K", .kc "KC_H", .kc "KC_COMM", .kc "KC_DOT", .kc "KC_SLSH",
     .layerTap 6 "KC_ESC", .layerTap 4 "KC_SPC", .layerTap 5 "KC_TAB",
     .layerTap 8 "KC_ENT", .layerTap 7 "KC_BSPC", .layerTap 9 "KC_DEL"],
    -- U_BUTTON: clipboard and mouse buttons
    [.kc "KC_UNDO", .kc "S(KC_DEL)", .kc "C(KC_INS)", .kc "S(KC_INS)",
     .kc "KC_AGIN",
     .kc "KC_AGIN", .kc "S(KC_INS)", .kc "C(KC_INS)", .kc "S(KC_DEL)",
     .kc "KC_UNDO",
     .kc "KC_LGUI", .kc "KC_LALT", .kc "KC_LCTL", .kc "KC_LSFT", .no,
     .no, .kc "KC_LSFT", .kc "KC_LCTL", .kc "KC_LALT", .kc "KC_LGUI",
     .kc "KC_UNDO", .kc "S(KC_DEL)", .kc "C(KC_INS)", .kc "S(KC_INS)",
     .kc "KC_AGIN",
     .kc "KC_AGIN", .kc "S(KC_INS)", .kc "C(KC_INS)", .kc "S(KC_DEL)",
     .kc "KC_UNDO",
     .kc "KC_BTN3", .kc "KC_BTN1", .kc "KC_BTN2",
     .kc "KC_BTN2", .kc "KC_BTN1", .kc "KC_BTN3"],
    -- U_NAV
    [.tapDance 0, .tapDance 3, .tapDance 2, .tapDance 1, .no,
     .kc "KC_AGIN", .kc "S(KC_INS)", .kc "C(KC_INS)", .kc "S(KC_DEL)",
     .kc "KC_UNDO",
     .kc "KC_LGUI", .kc "KC_LALT", .kc "KC_LCTL", .kc "KC_LSFT", .no,
     .kc "CW_TOGG", .kc "KC_LEFT", .kc "KC_DOWN", .kc "KC_UP",
     .kc "KC_RGHT",
     .no, .kc "KC_ALGR", .tapDance 8, .tapDance 5, .no,
     .kc "KC_INS", .kc "KC_HOME", .kc "KC_PGDN", .kc "KC_PGUP",
     .kc "KC_END",
     .no, .no, .no, .kc "KC_ENT", .kc "KC_BSPC", .kc "KC_DEL"],
    -- U_MOUSE
    [.tapDance 0, .tapDance 3, .tapDance 2, .tapDance 1, .no,
     .kc "KC_AGIN", .kc "S(KC_INS)", .kc "C(KC_INS)", .kc "S(KC_DEL)",
     .kc "KC_UNDO",
     .kc "KC_LGUI", .kc "KC_LALT", .kc "KC_LCTL", .kc "KC_LSFT", .no,
     .no, .kc "KC_MS_L", .kc "KC_MS_D", .kc "KC_MS_U", .kc "KC_MS_R",
     .no, .kc "KC_ALGR", .tapDance 9, .tapDance 6, .no,
     .no, .kc "KC_WH_L", .kc "KC_WH_D", .kc "KC_WH_U", .kc "KC_WH_R",
     .no, .no, .no, .kc "KC_BTN2", .kc "KC_BTN1", .kc "KC_BTN3"],
    -- U_MEDIA
    [.tapDance 0, .tapDance 3, .tapDance 2, .tapDance 1, .no,
     .kc "RGB_TOG", .kc "RGB_MOD", .kc "RGB_HUI", .kc "RGB_SAI",
     .kc "RGB_VAI",
     .kc "KC_LGUI", .kc "KC_LALT", .kc "KC_LCTL", .kc "KC_LSFT", .no,
     .no, .kc "KC_MPRV", .kc "KC_VOLD", .kc "KC_VOLU", .kc "KC_MNXT",
     .no, .kc "KC_ALGR", .tapDance 10, .tapDance 7, .no,
     .kc "OU_AUTO", .no, .no, .no, .no,
     .no, .no, .no, .kc "KC_MSTP", .kc "KC_MPLY", .kc "KC_MUTE"],
    -- U_NUM
    [.kc "KC_LBRC", .kc "KC_7", .kc "KC_8", .kc "KC_9", .kc "KC_RBRC",
     .no, .tapDance 1, .tapDance 2, .tapDance 3, .tapDance 0,
     .kc "KC_SCLN", .kc "KC_4", .kc "KC_5", .kc "KC_6", .kc "KC_EQL",
     .no, .kc "KC_LSFT", .kc "KC_LCTL", .kc "KC_LALT", .kc "KC_LGUI",
     .kc "KC_GRV", .kc "KC_1", .kc "KC_2", .kc "KC_3", .kc "KC_BSLS",
     .no, .tapDance 8, .tapDance 5, .kc "KC_ALGR", .no,
     .kc "KC_DOT", .kc "KC_0", .kc "KC_MINS", .no, .no, .no],
    -- U_SYM
    [.kc "KC_LCBR", .kc "KC_AMPR", .kc "KC_ASTR", .kc "KC_LPRN",
     .kc "KC_RCBR",
     .no, .tapDance 1, .tapDance 2, .tapDance 3, .tapDance 0,
     .kc "KC_COLN", .kc "KC_DLR", .kc "KC_PERC", .kc "KC_CIRC",
     .kc "KC_PLUS",
     .no, .kc "KC_LSFT", .kc "KC_LCTL", .kc "KC_LALT", .kc "KC_LGUI",
     .kc "KC_TILD", .kc "KC_EXLM", .kc "KC_AT", .kc "KC_HASH",
     .kc "KC_PIPE",
     .no, .tapDance 9, .tapDance 6, .kc "KC_ALGR", .no,
     .kc "KC_LPRN", .kc "KC_RPRN", .kc "KC_UNDS", .no, .no, .no],
    -- U_FUN
    [.kc "KC_F12", .kc "KC_F7", .kc "KC_F8", .kc "KC_F9", .kc "KC_PSCR",
     .no, .tapDance 1, .tapDance 2, .tapDance 3, .tapDance 0,
     .kc "KC_F11", .kc "KC_F4", .kc "KC_F5", .kc "KC_F6", .kc "KC_SCRL",
     .no, .kc "KC_LSFT", .kc "KC_LCTL", .kc "KC_LALT", .kc "KC_LGUI",
     .kc "KC_F10", .kc "KC_F1", .kc "KC_F2", .kc "KC_F3", .kc "KC_PAUS",
     .no, .tapDance 10, .tapDance 7, .kc "KC_ALGR", .no,
     .kc "KC_APP", .kc "KC_SPC", .kc "KC_TAB", .no, .no, .no]]

/-- The plain variant's keymap, src/firmware/keymap.c lines 42-72, one
36-entry list per layer (_LAYER_0 .. _LAYER_3). _LAYER_3 binds QK_BOOT
as a plain key at its first position. -/
def keymap_c_keymaps : List (List KeyAction) :=
  [ -- _LAYER_0
    [.kc "KC_Q", .kc "KC_W", .kc "KC_E", .kc "KC_R", .kc "KC_T",
     .kc "KC_Y", .kc "KC_U", .kc "KC_I", .kc "KC_O", .kc "KC_P",
     .kc "KC_A", .kc "KC_S", .kc "KC_D", .kc "KC_F", .kc "KC_G",
     .kc "KC_H", .kc "KC_J", .kc "KC_K", .kc "KC_L", .kc "KC_SCLN",
     .modTap "LSFT" "KC_Z", .kc "KC_X", .kc "KC_C", .kc "KC_V",
     .kc "KC_B",
     .kc "KC_N", .kc "KC_M", .kc "KC_COMM", .kc "KC_DOT",
     .modTap "RSFT" "KC_SLSH",
     .modTap "LALT" "KC_DEL", .modTap "LGUI" "KC_TAB",
     .modTap "LCTL" "KC_ESC",
     .kc "KC_SPC", .layerTap 1 "KC_ENT", .layerTap 2 "KC_BSPC"],
    -- _LAYER_1
    [.kc "KC_1", .kc "KC_2", .kc "KC_3", .kc "KC_4", .kc "KC_5",
     .kc "KC_6", .kc "KC_7", .kc "KC_8", .kc "KC_9", .kc "KC_0",
     .kc "KC_GRV", .kc "KC_HOME", .kc "KC_PGDN", .kc "KC_PGUP",
     .kc "KC_END",
     .kc "KC_LEFT", .kc "KC_DOWN", .kc "KC_UP", .kc "KC_RGHT",
     .kc "KC_QUOT",
     .kc "KC_LSFT", .kc "KC_BRID", .kc "KC_BRIU", .no, .no,
     .kc "KC_MINS", .kc "KC_EQL", .kc "KC_LBRC", .kc "KC_RBRC",
     .modTap "RSFT" "KC_BSLS",
     .no, .kc "G(KC_TAB)", .kc "C(KC_ESC)", .no, .trans, .momentary 3],
    -- _LAYER_2
    [.kc "KC_F1", .kc "KC_F2", .kc "KC_F3", .kc "KC_F4", .kc "KC_F5",
     .kc "KC_F6", .kc "KC_F7", .kc "KC_F8", .kc "KC_F9", .kc "KC_F10",
     .kc "KC_F11", .kc "KC_F12", .kc "KC_MPRV", .kc "KC_MPLY",
     .kc "KC_MNXT",
     .kc "MS_LEFT", .kc "MS_DOWN", .kc "MS_UP", .kc "MS_RGHT",
     .kc "KC_PSCR",
     .kc "KC_MUTE", .kc "KC_VOLD", .kc "KC_VOLU", .kc "MS_WHLD",
     .kc "MS_WHLU",
     .kc "MS_BTN1", .kc "MS_BTN2", .kc "MS_BTN3", .kc "MS_BTN4",
     .kc "MS_BTN5",
     .kc "MS_ACL0", .kc "MS_ACL1", .kc "MS_ACL2",
     .no, .momentary 3, .trans],
    -- _LAYER_3
    [.boot, .no, .no, .no, .no,
     .no, .no, .no, .no, .no,
     .kc "RM_TOGG", .no, .no, .no, .no,
     .no, .no, .no, .no, .no,
     .kc "RM_NEXT", .no, .no, .no, .no,
     .no, .no, .no, .no, .no,
     .no, .no, .no, .no, .trans, .trans]]

/-! ## Tapping term configuration
(src/firmware/keyboards/yxa/keymaps/miryoku/config.h lines 15-28) -/

def TAPPING_TERM : Nat := 200

def TAPPING_TERM_MOD_TAP : Nat := 220

def TAPPING_TERM_LAYER : Nat := 200

def QUICK_TAP_TERM : Nat := 120

/-- config.h line 25 defines TAPPING_TERM_PER_KEY and its comment says
the per-key lookup get_tapping_term() lives in yxa_features.c; no such
function exists anywhere in the repository, so QMK's weak default
applies: every keycode gets TAPPING_TERM. Modelled from QMK's weak
default get_tapping_term. -/
def get_tapping_term (_keycode : KeyAction) : Nat := TAPPING_TERM

/-! ## Helper lemmas -/

lemma testBit_log2_self {n : Nat} (h : n ≠ 0) : n.testBit n.log2 = true := by
  have h1 : 2 ^ n.log2 ≤ n := Nat.log2_self_le h
  have h2 : n < 2 ^ (n.log2 + 1) := Nat.lt_log2_self
  have hpos : 0 < 2 ^ n.log2 := Nat.pos_pow_of_pos _ (by norm_num)
  have hdiv : n / 2 ^ n.log2 = 1 := by
    have lo : 1 ≤ n / 2 ^ n.log2 := (Nat.one_le_div_iff hpos).2 h1
    have hi : n / 2 ^ n.log2 < 2 := by
      rw [Nat.div_lt_iff_lt_mul hpos]
      calc n < 2 ^ (n.log2 + 1) := h2
        _ = 2 ^ n.log2 * 2 := by rw [Nat.pow_succ]
        _ = 2 * 2 ^ n.log2 := Nat.mul_comm _ _
    omega
  rw [Nat.testBit_to_div_mod, hdiv]
  decide

lemma le_log2_of_testBit {n i : Nat} (h : n.testBit i = true) :
    i ≤ n.log2 := by
  by_contra hlt
  push_neg at hlt
  have hle : n.log2 + 1 ≤ i := hlt
  have hn : n < 2 ^ i :=
    lt_of_lt_of_le Nat.lt_log2_self (Nat.pow_le_pow_right (by norm_num) hle)
  have := Nat.testBit_lt_two_pow hn
  simp [h] at this

lemma flush_caches (s : PubState) :
    (flush_event_batch s).1.last_broadcast_layer = s.last_broadcast_layer ∧
    (flush_event_batch s).1.last_caps_word_state = s.last_caps_word_state ∧
    (flush_event_batch s).1.last_modifier_state = s.last_modifier_state := by
  unfold flush_event_batch
  split <;> simp

lemma flush_frames_batch (s : PubState) :
    ∀ f ∈ (flush_event_batch s).2, isBatchFrame f = true := by
  unfold flush_event_batch
  split <;> simp [isBatchFrame]

lemma hk_flush_caches (now : Nat) (s : PubState) :
    (hk_flush now s).1.last_broadcast_layer = s.last_broadcast_layer ∧
    (hk_flush now s).1.last_caps_word_state = s.last_caps_word_state ∧
    (hk_flush now s).1.last_modifier_state = s.last_modifier_state := by
  unfold hk_flush
  split
  · exact flush_caches s
  · simp

lemma hk_flush_frames_batch (now : Nat) (s : PubState) :
    ∀ f ∈ (hk_flush now s).2, isBatchFrame f = true := by
  unfold hk_flush
  split
  · exact flush_frames_batch s
  · simp

lemma filter_eq_nil_of_batch {p : Frame → Bool} {fs : List Frame}
    (hall : ∀ f ∈ fs, isBatchFrame f = true)
    (hp : ∀ f, isBatchFrame f = true → p f = false) :
    fs.filter p = [] := by
  induction fs with
  | nil => rfl
  | cons f rest ih =>
      have h1 := hall f (by simp)
      have hpf : p f = false := hp f h1
      rw [List.filter_cons_of_neg (by simp [hpf])]
      exact ih fun g hg => hall g (List.mem_cons_of_mem _ hg)

lemma isLayerFrame_of_batch {f : Frame} (h : isBatchFrame f = true) :
    isLayerFrame f = false := by
  cases f <;> simp_all [isBatchFrame, isLayerFrame]

lemma isCapsFrame_of_batch {f : Frame} (h : isBatchFrame f = true) :
    isCapsFrame f = false := by
  cases f <;> simp_all [isBatchFrame, isCapsFrame]

lemma isModsFrame_of_batch {f : Frame} (h : isBatchFrame f = true) :
    isModsFrame f = false := by
  cases f <;> simp_all [isBatchFrame, isModsFrame]

lemma hk_flush_filter_layer (now : Nat) (s : PubState) :
    (hk_flush now s).2.filter isLayerFrame = [] :=
  filter_eq_nil_of_batch (hk_flush_frames_batch now s)
    fun _ hf => isLayerFrame_of_batch hf

lemma hk_flush_filter_caps (now : Nat) (s : PubState) :
    (hk_flush now s).2.filter isCapsFrame = [] :=
  filter_eq_nil_of_batch (hk_flush_frames_batch now s)
    fun _ hf => isCapsFrame_of_batch hf

lemma hk_flush_filter_mods (now : Nat) (s : PubState) :
    (hk_flush now s).2.filter isModsFrame = [] :=
  filter_eq_nil_of_batch (hk_flush_frames_batch now s)
    fun _ hf => isModsFrame_of_batch hf

lemma hk_flush_layer_cache (now : Nat) (s : PubState) :
    (hk_flush now s).1.last_broadcast_layer = s.last_broadcast_layer :=
  (hk_flush_caches now s).1

lemma hk_flush_caps_cache (now : Nat) (s : PubState) :
    (hk_flush now s).1.last_caps_word_state = s.last_caps_word_state :=
  (hk_flush_caches now s).2.1

lemma hk_flush_mods_cache (now : Nat) (s : PubState) :
    (hk_flush now s).1.last_modifier_state = s.last_modifier_state :=
  (hk_flush_caches now s).2.2

lemma hk_layer_frames (current : Nat) (s : PubState) :
    (hk_layer current s).2 =
      if current ≠ s.last_broadcast_layer then [Frame.layerState current]
      else [] := by
  unfold hk_layer
  split <;> simp_all

lemma hk_layer_cache (current : Nat) (s : PubState) :
    (hk_layer current s).1.last_broadcast_layer = current := by
  unfold hk_layer
  split
  · rfl
  · simp_all

lemma hk_layer_caps (current : Nat) (s : PubState) :
    (hk_layer current s).1.last_caps_word_state = s.last_caps_word_state := by
  unfold hk_layer
  split <;> rfl

lemma hk_layer_mods (current : Nat) (s : PubState) :
    (hk_layer current s).1.last_modifier_state = s.last_modifier_state := by
  unfold hk_layer
  split <;> rfl

lemma hk_layer_batch (current : Nat) (s : PubState) :
    (hk_layer current s).1.event_batch = s.event_batch := by
  unfold hk_layer
  split <;> rfl

lemma hk_caps_frames (caps : Bool) (s : PubState) :
    (hk_caps caps s).2 =
      if caps ≠ s.last_caps_word_state then
        [Frame.capsWordState (if caps then 1 else 0)]
      else [] := by
  unfold hk_caps
  split <;> simp_all

lemma hk_caps_cache (caps : Bool) (s : PubState) :
    (hk_caps caps s).1.last_caps_word_state = caps := by
  unfold hk_caps
  split
  · rfl
  · simp_all

lemma hk_caps_layer (caps : Bool) (s : PubState) :
    (hk_caps caps s).1.last_broadcast_layer = s.last_broadcast_layer := by
  unfold hk_caps
  split <;> rfl

lemma hk_caps_mods (caps : Bool) (s : PubState) :
    (hk_caps caps s).1.last_modifier_state = s.last_modifier_state := by
  unfold hk_caps
  split <;> rfl

lemma hk_caps_batch (caps : Bool) (s : PubState) :
    (hk_caps caps s).1.event_batch = s.event_batch := by
  unfold hk_caps
  split <;> rfl

lemma hk_mods_frames (mods : Nat) (s : PubState) :
    (hk_mods mods s).2 =
      if mods ≠ s.last_modifier_state then [Frame.modifierState mods]
      else [] := by
  unfold hk_mods
  split <;> simp_all

lemma hk_mods_cache (mods : Nat) (s : PubState) :
    (hk_mods mods s).1.last_modifier_state = mods := by
  unfold hk_mods
  split
  · rfl
  · simp_all

lemma hk_mods_layer (mods : Nat) (s : PubState) :
    (hk_mods mods s).1.last_broadcast_layer = s.last_broadcast_layer := by
  unfold hk_mods
  split <;> rfl

lemma hk_mods_caps (mods : Nat) (s : PubState) :
    (hk_mods mods s).1.last_caps_word_state = s.last_caps_word_state := by
  unfold hk_mods
  split <;> rfl

lemma hk_mods_batch (mods : Nat) (s : PubState) :
    (hk_mods mods s).1.event_batch = s.event_batch := by
  unfold hk_mods
  split <;> rfl

lemma keyEventsOfFrames_append (a b : List Frame) :
    keyEventsOfFrames (a ++ b) =
      keyEventsOfFrames a ++ keyEventsOfFrames b :=
  List.flatMap_append a b _

lemma flush_key_events (s : PubState) :
    keyEventsOfFrames (flush_event_batch s).2 ++
      (flush_event_batch s).1.event_batch = s.event_batch := by
  unfold flush_event_batch
  split <;> simp_all [keyEventsOfFrames]

lemma add_key_events (t row col now : Nat) (s : PubState) :
    keyEventsOfFrames (add_event_to_batch t row col now s).2 ++
      (add_event_to_batch t row col now s).1.event_batch =
      s.event_batch ++ [(t, row, col)] := by
  unfold add_event_to_batch
  by_cases h : s.event_batch.length ≥ MAX_BATCH_EVENTS
  · simp only [h, if_pos]
    rw [← List.append_assoc, flush_key_events]
  · simp [h, keyEventsOfFrames]

lemma hk_flush_key_events (now : Nat) (s : PubState) :
    keyEventsOfFrames (hk_flush now s).2 ++ (hk_flush now s).1.event_batch =
      s.event_batch := by
  unfold hk_flush
  split
  · exact flush_key_events s
  · simp [keyEventsOfFrames]

lemma housekeeping_key_events (now ls ds : Nat) (caps : Bool) (mods : Nat)
    (s : PubState) :
    keyEventsOfFrames (housekeeping_task_user now ls ds caps mods s).2 ++
      (housekeeping_task_user now ls ds caps mods s).1.event_batch =
      s.event_batch := by
  unfold housekeeping_task_user
  simp only [keyEventsOfFrames_append, hk_layer_frames, hk_caps_frames,
    hk_mods_frames, hk_mods_batch, hk_caps_batch, hk_layer_batch]
  have h2 : ∀ (c : Prop) [Decidable c] (l : Nat),
      keyEventsOfFrames (if c then [] else [Frame.layerState l]) = [] := by
    intro c _ l
    split <;> simp [keyEventsOfFrames]
  have h3 : ∀ (c : Prop) [Decidable c] (f : Nat),
      keyEventsOfFrames (if c then [] else [Frame.capsWordState f]) = [] := by
    intro c _ f
    split <;> simp [keyEventsOfFrames]
  have h4 : ∀ (c : Prop) [Decidable c] (m : Nat),
      keyEventsOfFrames (if c then [] else [Frame.modifierState m]) = [] := by
    intro c _ m
    split <;> simp [keyEventsOfFrames]
  simp [h2, h3, h4, hk_flush_key_events]

lemma process_record_key_events (now : Nat) (pressed : Bool)
    (row col : Nat) (s : PubState) :
    keyEventsOfFrames (process_record_user now pressed row col s).2 ++
      (process_record_user now pressed row col s).1.event_batch =
      s.event_batch ++
        [(if pressed then MSG_KEY_PRESS else MSG_KEY_RELEASE, row, col)] := by
  unfold process_record_user
  exact add_key_events _ row col now s

lemma run_key_events (steps : List Step) : ∀ s : PubState,
    keyEventsOfFrames (run s steps).2 ++ (run s steps).1.event_batch =
      s.event_batch ++ keyInputs steps := by
  induction steps with
  | nil => intro s; simp [run, keyEventsOfFrames, keyInputs]
  | cons st rest ih =>
      intro s
      show keyEventsOfFrames ((stepRun s st).2 ++
          (run (stepRun s st).1 rest).2) ++
          (run (stepRun s st).1 rest).1.event_batch = _
      rw [keyEventsOfFrames_append, List.append_assoc, ih]
      rw [← List.append_assoc]
      cases st with
      | key now pressed row col =>
          show keyEventsOfFrames (process_record_user now pressed row col s).2 ++
              (process_record_user now pressed row col s).1.event_batch ++ _ = _
          rw [process_record_key_events]
          simp [keyInputs]
      | tick now ls ds caps mods =>
          show keyEventsOfFrames
              (housekeeping_task_user now ls ds caps mods s).2 ++
              (housekeeping_task_user now ls ds caps mods s).1.event_batch ++
              _ = _
          rw [housekeeping_key_events]
          simp [keyInputs]

lemma eventTypesAt_append (row col : Nat) (a b : List (Nat × Nat × Nat)) :
    eventTypesAt row col (a ++ b) =
      eventTypesAt row col a ++ eventTypesAt row col b := by
  simp [eventTypesAt, List.filter_append]

lemma altFrom_of_append {e : Nat} {l1 l2 : List Nat}
    (h : altFrom e (l1 ++ l2) = true) : altFrom e l1 = true := by
  induction l1 generalizing e with
  | nil => simp [altFrom]
  | cons t ts ih =>
      simp only [List.cons_append, altFrom, Bool.and_eq_true] at h ⊢
      exact ⟨h.1, ih h.2⟩

lemma applyWrites_cons (w : Nat × Color) (ws : List (Nat × Color))
    (b : Buffer) :
    applyWrites (w :: ws) b = applyWrites ws (setColor b w.1 w.2) := rfl

lemma applyWrites_not_written (ws : List (Nat × Color)) (b : Buffer)
    (j : Fin 36) (h : j.val ∉ ws.map Prod.fst) :
    applyWrites ws b j = b j := by
  induction ws generalizing b with
  | nil => rfl
  | cons w rest ih =>
      rw [applyWrites_cons]
      have hj : j.val ∉ rest.map Prod.fst := by
        intro hmem
        exact h (by simp [hmem])
      rw [ih _ hj]
      have hne : j.val ≠ w.1 := by
        intro heq
        exact h (by simp [heq])
      simp [setColor, hne]

lemma applyWrites_indep (ws : List (Nat × Color)) (b1 b2 : Buffer)
    (j : Fin 36) (h : j.val ∈ ws.map Prod.fst) :
    applyWrites ws b1 j = applyWrites ws b2 j := by
  induction ws generalizing b1 b2 with
  | nil => simp at h
  | cons w rest ih =>
      rw [applyWrites_cons, applyWrites_cons]
      by_cases hr : j.val ∈ rest.map Prod.fst
      · exact ih _ _ hr
      · have hj : j.val = w.1 := by
          simp only [List.map_cons, List.mem_cons] at h
          tauto
        rw [applyWrites_not_written _ _ _ hr, applyWrites_not_written _ _ _ hr]
        simp [setColor, hj]

lemma applyWrites_eq_of_covered (ws : List (Nat × Color)) (b1 b2 : Buffer)
    (h : ∀ j : Fin 36, j.val ∈ ws.map Prod.fst) :
    applyWrites ws b1 = applyWrites ws b2 :=
  funext fun j => applyWrites_indep ws b1 b2 j (h j)

lemma ledRange_full : ledRange 0 36 = List.range' 0 36 := by decide

lemma mem_ledRange_full (j : Fin 36) : j.val ∈ ledRange 0 36 := by
  rw [ledRange_full, List.mem_range'_1]
  exact ⟨Nat.zero_le _, by simp [j.isLt]⟩

lemma map_fst_pair (c : Nat → Color) (l : List Nat) :
    (l.map fun i => (i, c i)).map Prod.fst = l := by
  induction l with
  | nil => rfl
  | cons a t ih => simp [ih]

lemma yxa_writes_covered (layer : Nat) (j : Fin 36) :
    j.val ∈ (yxa_indicator_writes 0 36 layer).map Prod.fst := by
  unfold yxa_indicator_writes
  split
  · rw [map_fst_pair fun i => fingerColorAt i]
    exact mem_ledRange_full j
  · rw [List.map_append, map_fst_pair fun _ => YXA_WHITE]
    exact List.mem_append.2 (Or.inl (mem_ledRange_full j))

lemma km_writes_covered (layer : Nat) (hlt : layer < 8) (j : Fin 36) :
    j.val ∈ (km_indicator_writes 0 36 layer).map Prod.fst := by
  unfold km_indicator_writes
  have hj : j.val ∈ List.range' 0 36 := by
    rw [List.mem_range'_1]
    exact ⟨Nat.zero_le _, by simp [j.isLt]⟩
  refine List.mem_map.2 ?_
  by_cases h0 : layer = 0
  · refine ⟨(j.val, kmFingerColorAt j.val), ?_, rfl⟩
    refine List.mem_flatMap.2 ⟨j.val, hj, ?_⟩
    simp [h0, j.isLt]
  · refine ⟨(j.val, KM_LAYER_COLORS.getD layer (0, 0, 0)), ?_, rfl⟩
    refine List.mem_flatMap.2 ⟨j.val, hj, ?_⟩
    simp [h0, hlt]

lemma log2_eq_of {l n : Nat} (h1 : 2 ^ l ≤ n) (h2 : n < 2 ^ (l + 1)) :
    Nat.log2 n = l := by
  have hne : n ≠ 0 := by
    have : 0 < 2 ^ l := Nat.pos_pow_of_pos _ (by norm_num)
    omega
  have hlt : Nat.log2 n < l + 1 := (Nat.log2_lt hne).2 h2
  have hge : ¬ Nat.log2 n < l := fun hc => by
    have := (Nat.log2_lt hne).1 hc
    omega
  omega

/-! ## Claim theorems -/

/-- Claim C1 (corrected), counterexample: the plain variant's publisher
(keymap.c housekeeping_task_user) computes the broadcast layer over the
momentary mask alone; at the concrete state with empty momentary mask
and default layer id 3 it reports 0 while the maximum over
momentary ∪ default is 3. -/
theorem c1_keymap_momentary_only_cex :
    keymap_reported_layer 0 = 0 ∧ get_effective_layer 0 (1 <<< 3) = 3 ∧
    keymap_reported_layer 0 ≠ get_effective_layer 0 (1 <<< 3) := by
  have ha : keymap_reported_layer 0 = 0 := by
    simp [keymap_reported_layer, get_highest_layer, Nat.log2_zero]
  have hb : get_effective_layer 0 (1 <<< 3) = 3 := by
    show Nat.log2 (0 ||| 1 <<< 3) = 3
    rw [Nat.one_shiftLeft, Nat.zero_or]
    exact log2_eq_of (by norm_num) (by norm_num)
  refine ⟨ha, hb, ?_⟩
  rw [ha, hb]
  omega

/-- Claim C1 (amended): in yxa_features.c the effective layer used by
the publisher and the RGB indicator is the greatest element of
momentary_mask ∪ default_layer_id, computed over the union of both
masks (default_layer_state = 1 << default_layer_id); the keymap.c
publisher instead computes get_highest_layer over the momentary mask
alone, which coincides with the union value exactly when the default
layer id is 0, the only default that variant ever has. -/
theorem c1_effective_layer_amended (ls d : Nat) :
    (ls.testBit (get_effective_layer ls (1 <<< d)) = true ∨
      get_effective_layer ls (1 <<< d) = d) ∧
    (∀ i, ls.testBit i = true ∨ i = d →
      i ≤ get_effective_layer ls (1 <<< d)) ∧
    (∀ m, keymap_reported_layer m = get_effective_layer m (1 <<< 0)) := by
  have hsh : (1 : Nat) <<< d = 2 ^ d := Nat.one_shiftLeft d
  have heff : get_effective_layer ls (1 <<< d) = Nat.log2 (ls ||| 2 ^ d) := by
    rw [get_effective_layer, get_highest_layer, hsh]
  have hbit : (ls ||| 2 ^ d).testBit d = true := by
    simp [Nat.testBit_or, Nat.testBit_two_pow]
  have hne : (ls ||| 2 ^ d) ≠ 0 := by
    intro h0
    rw [h0] at hbit
    simp [Nat.zero_testBit] at hbit
  refine ⟨?_, ?_, ?_⟩
  · have hself := testBit_log2_self hne
    rw [Nat.testBit_or, Bool.or_eq_true] at hself
    rcases hself with hl | hr
    · left
      rw [heff]
      exact hl
    · right
      rw [Nat.testBit_two_pow] at hr
      rw [heff]
      exact (of_decide_eq_true hr).symm
  · intro i hi
    rw [heff]
    rcases hi with hl | hd
    · refine le_log2_of_testBit ?_
      rw [Nat.testBit_or, hl]
      simp
    · subst hd
      exact le_log2_of_testBit hbit
  · intro m
    have hm1 : get_effective_layer m (1 <<< 0) = Nat.log2 (m ||| 1) := rfl
    rw [keymap_reported_layer, get_highest_layer, hm1]
    by_cases hm : m = 0
    · subst hm
      rw [Nat.zero_or, Nat.log2_zero]
      exact (log2_eq_of (l := 0) (by norm_num) (by norm_num)).symm
    · have hone : (m ||| 1) ≠ 0 := by
        intro h0
        have : (m ||| 1).testBit 0 = true := by
          simp [Nat.testBit_or]
        rw [h0] at this
        simp [Nat.zero_testBit] at this
      have hA : Nat.log2 m ≤ Nat.log2 (m ||| 1) := by
        refine le_log2_of_testBit ?_
        rw [Nat.testBit_or, testBit_log2_self hm]
        simp
      have h2 := testBit_log2_self hone
      rw [Nat.testBit_or, Bool.or_eq_true] at h2
      rcases h2 with hl | hr
      · exact le_antisymm hA (le_log2_of_testBit hl)
      · have h1 : (1 : Nat) = 2 ^ 0 := rfl
        rw [h1, Nat.testBit_two_pow] at hr
        have h0 : Nat.log2 (m ||| 1) = 0 := (of_decide_eq_true hr).symm
        omega

/-- Claim C2 (confirmed): for each of the layer, modifier and caps-word
channels, housekeeping_task_user emits a frame on that channel if and
only if the current value differs from the per-channel cache; when it
emits, it emits exactly one frame carrying the new value; and the cache
ends up holding the current value. -/
theorem c2_channel_publication (now ls ds : Nat) (caps : Bool)
    (mods : Nat) (s : PubState) :
    ((housekeeping_task_user now ls ds caps mods s).2.filter isLayerFrame =
      if get_effective_layer ls ds ≠ s.last_broadcast_layer then
        [Frame.layerState (get_effective_layer ls ds)]
      else []) ∧
    ((housekeeping_task_user now ls ds caps mods s).2.filter isCapsFrame =
      if caps ≠ s.last_caps_word_state then
        [Frame.capsWordState (if caps then 1 else 0)]
      else []) ∧
    ((housekeeping_task_user now ls ds caps mods s).2.filter isModsFrame =
      if mods ≠ s.last_modifier_state then [Frame.modifierState mods]
      else []) ∧
    (housekeeping_task_user now ls ds caps mods s).1.last_broadcast_layer =
      get_effective_layer ls ds ∧
    (housekeeping_task_user now ls ds caps mods s).1.last_caps_word_state =
      caps ∧
    (housekeeping_task_user now ls ds caps mods s).1.last_modifier_state =
      mods := by
  unfold housekeeping_task_user
  simp only [List.filter_append, hk_flush_filter_layer, hk_flush_filter_caps,
    hk_flush_filter_mods, hk_layer_frames, hk_caps_frames, hk_mods_frames,
    hk_layer_cache, hk_caps_cache, hk_mods_cache, hk_mods_layer,
    hk_caps_layer, hk_mods_caps, hk_layer_caps, hk_layer_mods, hk_caps_mods,
    hk_flush_layer_cache, hk_flush_caps_cache, hk_flush_mods_cache,
    List.nil_append]
  refine ⟨?_, ?_, ?_, by simp, by simp, by simp⟩
  · rcases em (get_effective_layer ls ds = s.last_broadcast_layer) with h | h <;>
      rcases em (caps = s.last_caps_word_state) with h2 | h2 <;>
      rcases em (mods = s.last_modifier_state) with h3 | h3 <;>
      simp [h, h2, h3, isLayerFrame]
  · rcases em (get_effective_layer ls ds = s.last_broadcast_layer) with h | h <;>
      rcases em (caps = s.last_caps_word_state) with h2 | h2 <;>
      rcases em (mods = s.last_modifier_state) with h3 | h3 <;>
      simp [h, h2, h3, isLayerFrame, isCapsFrame]
  · rcases em (get_effective_layer ls ds = s.last_broadcast_layer) with h | h <;>
      rcases em (caps = s.last_caps_word_state) with h2 | h2 <;>
      rcases em (mods = s.last_modifier_state) with h3 | h3 <;>
      simp [h, h2, h3, isLayerFrame, isCapsFrame, isModsFrame]

/-- Claim C3 (corrected), counterexample: the publisher keeps no
KeyTrackSet and suppresses nothing. Feeding two consecutive KEY_PRESS
events for physical key (0,0) and then a housekeeping tick makes the
publisher emit both presses: the emitted sequence for that key is
PRESS, PRESS, which is not alternating. -/
theorem c3_no_dedup_cex :
    eventTypesAt 0 0 (keyEventsOfFrames
      (run initState [Step.key 0 true 0 0, Step.key 1 true 0 0,
        Step.tick 10 0 0 false 0]).2) =
      [MSG_KEY_PRESS, MSG_KEY_PRESS] ∧
    altFromPress [MSG_KEY_PRESS, MSG_KEY_PRESS] = false := by
  constructor
  · simp [run, stepRun, process_record_user, add_event_to_batch,
      flush_event_batch, housekeeping_task_user, hk_flush, hk_layer,
      hk_caps, hk_mods, timer_elapsed, get_effective_layer,
      get_highest_layer, Nat.log2_zero, initState, keyEventsOfFrames,
      eventTypesAt, MAX_BATCH_EVENTS, BATCH_TIMEOUT_MS, MSG_KEY_PRESS,
      MSG_KEY_RELEASE]
  · simp [altFromPress, altFrom, MSG_KEY_PRESS, MSG_KEY_RELEASE]

/-- Claim C3 (amended): process_record_user performs no deduplication:
every post-arbitration key event is appended to the batch unchanged, so
over any run the concatenation of the emitted key events and the still
pending batch is exactly the input event sequence; in particular the
emitted per-key sequence is a prefix of the input per-key sequence, and
is alternating starting with PRESS whenever the input sequence for that
key is. -/
theorem c3_forwarding_amended (steps : List Step) :
    keyEventsOfFrames (run initState steps).2 ++
      (run initState steps).1.event_batch = keyInputs steps ∧
    (∀ row col,
      altFromPress (eventTypesAt row col (keyInputs steps)) = true →
      altFromPress (eventTypesAt row col
        (keyEventsOfFrames (run initState steps).2)) = true) := by
  have h := run_key_events steps initState
  rw [show initState.event_batch = [] from rfl, List.nil_append] at h
  refine ⟨h, ?_⟩
  intro row col halt
  have hsplit : eventTypesAt row col (keyInputs steps) =
      eventTypesAt row col (keyEventsOfFrames (run initState steps).2) ++
        eventTypesAt row col ((run initState steps).1.event_batch) := by
    rw [← eventTypesAt_append, h]
  rw [hsplit] at halt
  exact altFrom_of_append halt

lemma housekeeping_filter_batch (now ls ds : Nat) (caps : Bool)
    (mods : Nat) (s : PubState) :
    (housekeeping_task_user now ls ds caps mods s).2.filter isBatchFrame =
      (hk_flush now s).2 := by
  unfold housekeeping_task_user
  simp only [List.filter_append, hk_layer_frames, hk_caps_frames,
    hk_mods_frames]
  have hA : (hk_flush now s).2.filter isBatchFrame = (hk_flush now s).2 :=
    List.filter_eq_self.2 (hk_flush_frames_batch now s)
  rw [hA]
  have h2 : ∀ (c : Prop) [Decidable c] (l : Nat),
      (if c then [] else [Frame.layerState l]).filter isBatchFrame = [] := by
    intro c _ l
    split <;> simp [isBatchFrame]
  have h3 : ∀ (c : Prop) [Decidable c] (f : Nat),
      (if c then [] else [Frame.capsWordState f]).filter isBatchFrame = [] := by
    intro c _ f
    split <;> simp [isBatchFrame]
  have h4 : ∀ (c : Prop) [Decidable c] (m : Nat),
      (if c then [] else [Frame.modifierState m]).filter isBatchFrame = [] := by
    intro c _ m
    split <;> simp [isBatchFrame]
  simp [h2, h3, h4]

/-- Claim C4 (corrected), counterexample: a press arriving at an empty
batch is not flushed immediately: process_record_user sends no frame at
the time of the press (the claim requires one single-event KEY_BATCH),
and leaves the press queued in the batch buffer. -/
theorem c4_press_not_flushed_cex :
    (process_record_user 0 true 1 2 initState).2 = [] ∧
    (process_record_user 0 true 1 2 initState).1.event_batch =
      [(MSG_KEY_PRESS, 1, 2)] := by
  constructor <;>
    simp [process_record_user, add_event_to_batch, flush_event_batch,
      initState, MAX_BATCH_EVENTS, MSG_KEY_PRESS]

/-- Claim C4 (amended): a press event is batched like any other event:
while the batch holds fewer than MAX_BATCH_EVENTS events the press is
appended and no frame is emitted at press time; when the batch is
already full, only the previously queued events are flushed (one
KEY_BATCH) and the press starts the new batch; the queued press is
transmitted at the next housekeeping tick once BATCH_TIMEOUT_MS has
elapsed. -/
theorem c4_press_batched_amended (now ls ds row col : Nat) (caps : Bool)
    (mods : Nat) (s : PubState) :
    (s.event_batch.length < MAX_BATCH_EVENTS →
      (process_record_user now true row col s).2 = [] ∧
      (process_record_user now true row col s).1.event_batch =
        s.event_batch ++ [(MSG_KEY_PRESS, row, col)]) ∧
    (s.event_batch.length ≥ MAX_BATCH_EVENTS →
      (process_record_user now true row col s).2 =
        [Frame.keyBatch s.event_batch] ∧
      (process_record_user now true row col s).1.event_batch =
        [(MSG_KEY_PRESS, row, col)]) ∧
    (s.event_batch ≠ [] →
      timer_elapsed now s.last_batch_time > BATCH_TIMEOUT_MS →
      (housekeeping_task_user now ls ds caps mods s).2.filter isBatchFrame =
        [Frame.keyBatch s.event_batch]) := by
  refine ⟨?_, ?_, ?_⟩
  · intro h
    have hlt : ¬ s.event_batch.length ≥ MAX_BATCH_EVENTS := by omega
    constructor <;>
      simp [process_record_user, add_event_to_batch, hlt]
  · intro h
    have hne : s.event_batch ≠ [] := by
      intro h0
      rw [h0] at h
      simp [MAX_BATCH_EVENTS] at h
    constructor <;>
      simp [process_record_user, add_event_to_batch, flush_event_batch,
        h, hne]
  · intro hne htime
    rw [housekeeping_filter_batch]
    have hlen : s.event_batch.length > 0 := List.length_pos.2 hne
    unfold hk_flush flush_event_batch
    rw [if_pos ⟨hlen, htime⟩, if_pos hne]

/-- Claim C5 (corrected), counterexample: the plain variant (keymap.c
raw_hid_receive_kb) does not answer with a FULL_STATE frame: a
HEARTBEAT (0x06) gets no reply at all, and a REQUEST_STATE (0x00) while
layer 7 is active is answered with a LAYER_STATE frame, which is not
the FULL_STATE frame the claim requires. -/
theorem c5_keymap_no_full_state_cex :
    (keymap_raw_hid_receive MSG_HEARTBEAT 128).2 = [] ∧
    (keymap_raw_hid_receive MSG_REQUEST_STATE 128).2 =
      [Frame.layerState 7] ∧
    Frame.layerState 7 ≠ Frame.fullState 7 1 1 0 := by
  have h7 : keymap_reported_layer 128 = 7 := by
    rw [keymap_reported_layer, get_highest_layer]
    exact log2_eq_of (by norm_num) (by norm_num)
  refine ⟨?_, ?_, by simp⟩
  · simp [keymap_raw_hid_receive, MSG_HEARTBEAT, MSG_REQUEST_STATE]
  · simp [keymap_raw_hid_receive, MSG_REQUEST_STATE, h7]

/-- Claim C5 (amended): the yxa_features.c variant answers both
REQUEST_STATE (0x00) and HEARTBEAT (0x06) with exactly one FULL_STATE
frame whose bytes are 0x07, effective layer, caps-word flag, modifier
bitmask, pressed count 0, zero-padded to 32 bytes; in the concrete
scenario (layer NUM = 7 active, default layer 0, caps-word on, mods
0x01) the bytes are 0x07, 7, 1, 0x01, 0. The keymap.c variant instead
answers REQUEST_STATE with a single LAYER_STATE frame and ignores
HEARTBEAT. -/
theorem c5_full_state_amended (ls ds mods : Nat) (caps : Bool) :
    (raw_hid_receive_kb MSG_REQUEST_STATE ls ds caps mods).2 =
      [send_full_state ls ds caps mods] ∧
    (raw_hid_receive_kb MSG_HEARTBEAT ls ds caps mods).2 =
      [send_full_state ls ds caps mods] ∧
    frameBytes (send_full_state ls ds caps mods) =
      MSG_FULL_STATE :: get_effective_layer ls ds ::
        (if caps then 1 else 0) :: mods :: 0 :: List.replicate 27 0 ∧
    frameBytes (send_full_state 128 1 true 1) =
      [7, 7, 1, 1, 0] ++ List.replicate 27 0 ∧
    (keymap_raw_hid_receive MSG_REQUEST_STATE ls).2 =
      [Frame.layerState (keymap_reported_layer ls)] ∧
    (keymap_raw_hid_receive MSG_HEARTBEAT ls).2 = [] := by
  have hnum : get_effective_layer 128 1 = 7 := by
    show Nat.log2 (128 ||| 1) = 7
    have : (128 : Nat) ||| 1 = 129 := by decide
    rw [this]
    exact log2_eq_of (by norm_num) (by norm_num)
  refine ⟨?_, ?_, ?_, ?_, ?_, ?_⟩
  · simp [raw_hid_receive_kb, MSG_REQUEST_STATE]
  · simp [raw_hid_receive_kb, MSG_REQUEST_STATE, MSG_HEARTBEAT]
  · simp [send_full_state, frameBytes, padFrame, RAW_EPSIZE,
      MSG_FULL_STATE]
  · simp [send_full_state, frameBytes, padFrame, RAW_EPSIZE,
      MSG_FULL_STATE, hnum]
  · simp [keymap_raw_hid_receive, MSG_REQUEST_STATE]
  · simp [keymap_raw_hid_receive, MSG_REQUEST_STATE, MSG_HEARTBEAT]

/-- Claim C6 (confirmed): MAX_BATCH_EVENTS is 8 and BATCH_TIMEOUT_MS is
2 (within the claimed 1-2 ms); adding an event to a full batch of 8
flushes exactly those 8 as one KEY_BATCH and starts a new batch holding
only the new event; adding to a batch under 8 emits nothing; the
pending batch count never exceeds 8; and a nonempty batch older than
BATCH_TIMEOUT_MS is flushed as one KEY_BATCH by the housekeeping
tick. -/
theorem c6_batch_flush (t row col now ls ds : Nat) (caps : Bool)
    (mods : Nat) (s : PubState) :
    (MAX_BATCH_EVENTS = 8 ∧ BATCH_TIMEOUT_MS = 2) ∧
    (s.event_batch.length ≤ MAX_BATCH_EVENTS →
      (add_event_to_batch t row col now s).1.event_batch.length ≤
        MAX_BATCH_EVENTS) ∧
    (s.event_batch.length = MAX_BATCH_EVENTS →
      (add_event_to_batch t row col now s).2 =
        [Frame.keyBatch s.event_batch] ∧
      (add_event_to_batch t row col now s).1.event_batch =
        [(t, row, col)]) ∧
    (s.event_batch.length < MAX_BATCH_EVENTS →
      (add_event_to_batch t row col now s).2 = [] ∧
      (add_event_to_batch t row col now s).1.event_batch =
        s.event_batch ++ [(t, row, col)]) ∧
    (s.event_batch ≠ [] →
      timer_elapsed now s.last_batch_time > BATCH_TIMEOUT_MS →
      (housekeeping_task_user now ls ds caps mods s).2.filter isBatchFrame =
        [Frame.keyBatch s.event_batch]) := by
  refine ⟨⟨rfl, rfl⟩, ?_, ?_, ?_, ?_⟩
  · intro h
    simp only [MAX_BATCH_EVENTS] at h
    by_cases h8 : 8 ≤ s.event_batch.length
    · have hne : s.event_batch ≠ [] := by
        intro h0
        rw [h0] at h8
        simp at h8
      simp [add_event_to_batch, flush_event_batch, MAX_BATCH_EVENTS, h8,
        hne]
    · simp only [add_event_to_batch, MAX_BATCH_EVENTS, h8, ge_iff_le,
        ite_false, if_neg h8, List.length_append, List.length_cons,
        List.length_nil]
      omega
  · intro h
    have hne : s.event_batch ≠ [] := by
      intro h0
      rw [h0] at h
      simp [MAX_BATCH_EVENTS] at h
    have h8 : s.event_batch.length ≥ MAX_BATCH_EVENTS := le_of_eq h.symm
    constructor <;>
      simp [add_event_to_batch, flush_event_batch, h8, hne]
  · intro h
    have h8 : ¬ s.event_batch.length ≥ MAX_BATCH_EVENTS := by omega
    constructor <;> simp [add_event_to_batch, h8]
  · intro hne htime
    rw [housekeeping_filter_batch]
    have hlen : s.event_batch.length > 0 := List.length_pos.2 hne
    unfold hk_flush flush_event_batch
    rw [if_pos ⟨hlen, htime⟩, if_pos hne]

/-- Claim C7 (confirmed): a full-frame RGB repaint is a pure, idempotent
function of the effective layer alone: for every layer value the
yxa_features.c indicator produces the same buffer from any two starting
buffers and painting twice equals painting once; the same holds for the
keymap.c indicator at every effective layer its 4-layer engine can
produce (get_highest_layer of a 4-bit layer_state). -/
theorem c7_rgb_pure (layer : Nat) (b1 b2 : Buffer) :
    yxa_rgb_paint layer b1 = yxa_rgb_paint layer b2 ∧
    yxa_rgb_paint layer (yxa_rgb_paint layer b1) = yxa_rgb_paint layer b1 ∧
    (∀ m, m < 16 →
      km_rgb_paint (keymap_reported_layer m) b1 =
        km_rgb_paint (keymap_reported_layer m) b2 ∧
      km_rgb_paint (keymap_reported_layer m)
          (km_rgb_paint (keymap_reported_layer m) b1) =
        km_rgb_paint (keymap_reported_layer m) b1) := by
  have hyxa : ∀ x y : Buffer,
      yxa_rgb_paint layer x = yxa_rgb_paint layer y := fun x y =>
    applyWrites_eq_of_covered _ x y fun j => yxa_writes_covered layer j
  refine ⟨hyxa b1 b2, hyxa _ _, ?_⟩
  intro m hm
  have hl8 : keymap_reported_layer m < 8 := by
    by_cases hm0 : m = 0
    · subst hm0
      simp [keymap_reported_layer, get_highest_layer, Nat.log2_zero]
    · have h4 : m < 2 ^ 4 := by
        norm_num
        omega
      have := (Nat.log2_lt hm0).2 h4
      rw [keymap_reported_layer, get_highest_layer]
      omega
  have hkm : ∀ x y : Buffer,
      km_rgb_paint (keymap_reported_layer m) x =
        km_rgb_paint (keymap_reported_layer m) y := fun x y =>
    applyWrites_eq_of_covered _ x y fun j =>
      km_writes_covered (keymap_reported_layer m) hl8 j
  exact ⟨hkm b1 b2, hkm _ _⟩

/-- Claim C8 (corrected), counterexample: keymap.c binds QK_BOOT as a
plain key: entry (row 0, col 0) of keymaps[_LAYER_3] is the boot action
itself, not a tap-dance, so bootloader entry is reachable without any
tap-dance action. -/
theorem c8_plain_boot_cex :
    (keymap_c_keymaps.getD 3 []).getD 0 KeyAction.no = KeyAction.boot ∧
    (∀ id, KeyAction.boot ≠ KeyAction.tapDance id) := by
  constructor
  · decide
  · intro id
    simp

/-- Claim C8 (amended): the boot tap-dance handler calls
reset_keyboard() exactly when the final tap count is 2, and no other
tap-dance entry ever resets; in the miryoku keymap bootloader entry
appears only through the TD(U_TD_BOOT) tap-dance (no plain QK_BOOT
binding exists there), but the plain keymap.c variant additionally
binds QK_BOOT as a plain key on _LAYER_3. -/
theorem c8_boot_paths_amended :
    (∀ count, u_td_fn_boot count = TDEffect.resetKeyboard ↔ count = 2) ∧
    (∀ id count, tap_dance_actions id count = TDEffect.resetKeyboard →
      id = 0 ∧ count = 2) ∧
    KeyAction.boot ∉ miryoku_keymaps.flatten ∧
    KeyAction.boot ∈ keymap_c_keymaps.flatten := by
  refine ⟨?_, ?_, by decide, by decide⟩
  · intro count
    unfold u_td_fn_boot
    split <;> simp_all
  · intro id count h
    unfold tap_dance_actions at h
    split at h <;>
      first
        | (unfold u_td_fn_boot at h
           split at h <;> simp_all)
        | (unfold u_td_fn_layer at h
           split at h <;> simp_all)
        | simp_all

/-- Claim C9 (code bug): config.h defines TAPPING_TERM_PER_KEY, declares
TAPPING_TERM_MOD_TAP = 220 and TAPPING_TERM_LAYER = 200 and documents a
per-key get_tapping_term() in yxa_features.c, but no get_tapping_term
exists in the repository; QMK's weak default then returns the global
TAPPING_TERM = 200 for every key, so mod-tap and layer-tap keys share
one term and no per-key lookup returns the configured 220 for
mod-taps. -/
theorem c9_tapping_term_constant :
    (∀ k1 k2 : KeyAction, get_tapping_term k1 = get_tapping_term k2) ∧
    get_tapping_term (KeyAction.modTap "LGUI" "KC_A") = 200 ∧
    get_tapping_term (KeyAction.layerTap 4 "KC_SPC") = 200 ∧
    TAPPING_TERM_MOD_TAP = 220 ∧
    TAPPING_TERM_LAYER = 200 ∧
    get_tapping_term (KeyAction.modTap "LGUI" "KC_A") ≠
      TAPPING_TERM_MOD_TAP := by
  refine ⟨fun _ _ => rfl, rfl, rfl, rfl, rfl, by decide⟩

/-- Claim C10 (confirmed): the cached last-broadcast layer is
initialized to the sentinel 255; since the effective layer of any
16-bit layer state is below 255, the first housekeeping tick after
power-up always emits one LAYER_STATE frame carrying the current
effective layer, even though no layer change occurred. -/
theorem c10_first_tick_broadcast (now ls ds : Nat) (caps : Bool)
    (mods : Nat) (hls : ls < 2 ^ 16) (hds : ds < 2 ^ 16) :
    (housekeeping_task_user now ls ds caps mods initState).2.filter
        isLayerFrame = [Frame.layerState (get_effective_layer ls ds)] ∧
    initState.last_broadcast_layer = 255 ∧
    get_effective_layer ls ds < 255 := by
  have hor : ls ||| ds < 2 ^ 16 := Nat.or_lt_two_pow hls hds
  have heff : get_effective_layer ls ds < 255 := by
    rw [get_effective_layer, get_highest_layer]
    by_cases h0 : ls ||| ds = 0
    · rw [h0, Nat.log2_zero]
      norm_num
    · have h16 : Nat.log2 (ls ||| ds) < 16 := (Nat.log2_lt h0).2 hor
      omega
  have hne : get_effective_layer ls ds ≠ initState.last_broadcast_layer := by
    rw [show initState.last_broadcast_layer = 255 from rfl]
    omega
  refine ⟨?_, rfl, heff⟩
  unfold housekeeping_task_user
  simp only [List.filter_append, hk_flush_filter_layer, hk_layer_frames,
    hk_caps_frames, hk_mods_frames, hk_flush_layer_cache, List.nil_append]
  have hcap : ∀ (c : Prop) [Decidable c] (f : Nat),
      (if c then [] else [Frame.capsWordState f]).filter isLayerFrame =
        [] := by
    intro c _ f
    split <;> simp [isLayerFrame]
  have hmod : ∀ (c : Prop) [Decidable c] (m : Nat),
      (if c then [] else [Frame.modifierState m]).filter isLayerFrame =
        [] := by
    intro c _ m
    split <;> simp [isLayerFrame]
  simp [hne, hcap, hmod, isLayerFrame]

/-- Witness for C10 at the concrete power-up state: layer_state 0,
default layer 0 (mask 1), caps-word off, no modifiers. -/
theorem c10_first_tick_broadcast_witness :
    (housekeeping_task_user 0 0 1 false 0 initState).2.filter
        isLayerFrame = [Frame.layerState (get_effective_layer 0 1)] ∧
    initState.last_broadcast_layer = 255 ∧
    get_effective_layer 0 1 < 255 :=
  c10_first_tick_broadcast 0 0 1 false 0 (by norm_num) (by norm_num)
